import Mathlib

/-!
# Verification of `log_call.py` (llskyhi/log-call)

Shallow embedding of the `log_call` module: a class-based decorator
`_CallableWrapper` that logs an "entered" record before and an "exited"
record after each invocation of a wrapped callable, tracking per-thread
call-stack depth, a process-wide serial number, elapsed time, and a
filtered one-line caller chain.

The embedding is split into independent models, each faithful to a slice
of the source:

* an operational model of `_CallableWrapper.__call__` together with
  `_InvocationContext.__enter__`/`__exit__` (lines 41-130 of
  `log_call.py`), with wrapped calls allowed to perform further wrapped
  calls (recursion/nesting); log records are modelled at the granularity
  of (kind, stack level, serial number, payload);
* a model of the `_InvocationContext` state machine with its `assert`
  guards (lines 41-92);
* a model of the value-formatting pipeline `_format_object`,
  `_format_invocation_argument` and of the result rendering done by
  `_log_exit` via `repr` (lines 156-176, 243-274), where Python
  `repr`/`str` are allowed to raise;
* a model of `_format_elapsed_time` over normalized `datetime.timedelta`
  values (lines 250-260);
* a model of the frame walking and caller-chain formatting
  `_iterate_frames`, `_format_caller`, `_format_one_line_call_stack`
  (lines 187-227);
* a model of the descriptor protocol `__get__` (lines 112-116) and of
  Python's `types.MethodType` call semantics.

Wall-clock readings (`time.perf_counter()`) are supplied as explicit
parameters; thread-local state is modelled for a single thread, which is
what the depth/nesting claims quantify over.
-/

namespace LogCall

/-! ## Operational model of `_CallableWrapper.__call__`

A wrapped callable's body is a `Prog`: it can return a value, raise an
`Exception` (Python class hierarchy member caught by `except Exception`,
log_call.py line 125), raise a `BaseException` that is *not* an
`Exception` (e.g. `KeyboardInterrupt`), or invoke another wrapped
callable and continue with its result.  `V` is the type of Python values
passed around, `E` the type of exception objects. -/

inductive Prog (V E : Type) : Type where
  /-- The body finishes by returning value `v`. -/
  | ret (v : V) : Prog V E
  /-- The body raises `e`, an instance of `Exception`. -/
  | raiseE (e : E) : Prog V E
  /-- The body raises `e`, a `BaseException` that is not an `Exception`
  (such as `KeyboardInterrupt` or `SystemExit`). -/
  | raiseB (e : E) : Prog V E
  /-- The body invokes a wrapped callable whose target is `target`, with
  argument list `args`; on normal return of value `v` the body continues
  as `k v`.  A raised exception propagates out (the surrounding bodies do
  not catch). -/
  | call (args : List V) (target : List V → Prog V E) (k : V → Prog V E) : Prog V E

/-- One log record, at the granularity the counting/depth claims need:
`_log_enter` emits `entered` (log_call.py lines 136-149), `_log_exit`
emits `exitedReturned` or `exitedRaised` (lines 156-176).  Each record
carries the context's stack level and serial number and the payload the
message is built from. -/
inductive Rec (V E : Type) : Type where
  | entered (level serial : Nat) (args : List V) : Rec V E
  | exitedReturned (level serial : Nat) (returned : V) : Rec V E
  | exitedRaised (level serial : Nat) (raised : E) : Rec V E
  deriving DecidableEq

/-- Outcome of running a body or a wrapped invocation. -/
inductive Outcome (V E : Type) : Type where
  /-- Normal return of `v`. -/
  | returned (v : V) : Outcome V E
  /-- An `Exception` instance `e` propagates. -/
  | raised (e : E) : Outcome V E
  /-- A non-`Exception` `BaseException` `e` propagates. -/
  | interrupted (e : E) : Outcome V E
  deriving DecidableEq

/-- Global state of the model: the current thread's
`_thread_local.call_stack_level` (log_call.py lines 43, 58-59, 63), the
class-wide `_serial_number` counter (lines 44, 86-92), and the list of
log records emitted so far. -/
structure St (V E : Type) : Type where
  depth : Nat
  serial : Nat
  log : List (Rec V E)
  deriving DecidableEq

/-- State right after `_InvocationContext.__init__` + `__enter__` +
`_log_enter` for an invocation started from state `st`:
the serial number is allocated at context creation (line 49), the stack
level becomes the thread's depth + 1 and is stored back into the
thread-local counter (lines 58-59), and the "entered" record is emitted
at that level (line 123). -/
def enterState {V E : Type} (st : St V E) (args : List V) : St V E :=
  ⟨st.depth + 1, st.serial + 1,
    st.log ++ [Rec.entered (st.depth + 1) (st.serial + 1) args]⟩

/-- Executes a body, interpreting each `Prog.call` exactly as
`_CallableWrapper.__call__` (log_call.py lines 118-130) does.
`reprV` is the behavior of `repr` on returned values and `reprE` on
exception objects: `_log_exit` renders both with a plain `!r` f-string
(lines 163 and 166), which evaluates `repr` eagerly and can itself
raise — that failure is *not* absorbed (only `_format_object`, used for
arguments in `_log_enter`, has the fallback; `_log_enter`'s rendering
and the one-line stack formatting are total).  Step by step:

* create the context, allocating the next serial number (line 120);
* `with context:` enters it: stack level := thread depth + 1, written
  back to the thread-local counter (lines 58-59);
* `_log_enter` emits the "entered" record (line 123; its argument
  rendering goes through the total `_format_object`, so it cannot
  fail);
* run the target on exactly the received arguments (line 124);
* leaving the `with` block runs `__exit__` on every path, which resets
  the thread-local counter to `stack_level - 1` (line 63);
* on normal return, the `else` clause calls `_log_exit(returned=...)`:
  if `repr(returned)` succeeds the "exited" record is emitted and the
  value is returned unchanged (lines 129-130, 166); if it raises, the
  repr failure propagates out of the `else` clause (the same `try`'s
  `except` does not cover it) — no "exited" record, the wrapper raises
  instead of returning;
* on an `Exception`, the `except Exception` clause calls
  `_log_exit(raised=...)`: if `repr(raised)` succeeds the "exited"
  record is emitted and the bare `raise` re-raises the same exception
  object (lines 125-127, 163); if it raises, the repr failure
  propagates before the bare `raise` executes — no "exited" record, and
  the original exception is *not* re-raised;
* on a `BaseException` that is not an `Exception`, `except Exception`
  does not match: no "exited" record is emitted, the exception
  propagates (only `__exit__` has run). -/
def exec {V E : Type} (reprV : V → Except E String)
    (reprE : E → Except E String) :
    Prog V E → St V E → Outcome V E × St V E
  | Prog.ret v, st => (Outcome.returned v, st)
  | Prog.raiseE e, st => (Outcome.raised e, st)
  | Prog.raiseB e, st => (Outcome.interrupted e, st)
  | Prog.call args target k, st =>
      let level := st.depth + 1
      let serial := st.serial + 1
      match exec reprV reprE (target args) (enterState st args) with
      | (Outcome.returned v, st2) =>
          match reprV v with
          | Except.ok _ =>
              exec reprV reprE (k v)
                ⟨level - 1, st2.serial,
                  st2.log ++ [Rec.exitedReturned level serial v]⟩
          | Except.error e2 =>
              (Outcome.raised e2, ⟨level - 1, st2.serial, st2.log⟩)
      | (Outcome.raised e, st2) =>
          match reprE e with
          | Except.ok _ =>
              (Outcome.raised e,
                ⟨level - 1, st2.serial,
                  st2.log ++ [Rec.exitedRaised level serial e]⟩)
          | Except.error e2 =>
              (Outcome.raised e2, ⟨level - 1, st2.serial, st2.log⟩)
      | (Outcome.interrupted e, st2) =>
          (Outcome.interrupted e, ⟨level - 1, st2.serial, st2.log⟩)

/-- A single invocation of the wrapper on `target` with arguments
`args`: the continuation just hands the returned value through
(`returned = self._callable(*args); return returned`). -/
def invoke {V E : Type} (reprV : V → Except E String)
    (reprE : E → Except E String) (target : List V → Prog V E)
    (args : List V) (st : St V E) : Outcome V E × St V E :=
  exec reprV reprE (Prog.call args target (fun v => Prog.ret v)) st

/-- A `repr` that always succeeds, for runs whose values and exceptions
all render fine. -/
def reprTotal {α E : Type} : α → Except E String := fun _ => Except.ok ""

/-- Is this record an "entered" record? -/
def isEntered {V E : Type} : Rec V E → Bool
  | Rec.entered _ _ _ => true
  | _ => false

/-- Is this record an "exited" record (either shape)? -/
def isExited {V E : Type} : Rec V E → Bool
  | Rec.exitedReturned _ _ _ => true
  | Rec.exitedRaised _ _ _ => true
  | _ => false

/-- Number of "entered" records in a log. -/
def countEntered {V E : Type} (l : List (Rec V E)) : Nat := l.countP isEntered

/-- Number of "exited" records in a log. -/
def countExited {V E : Type} (l : List (Rec V E)) : Nat := l.countP isExited

/-- Body of the recursive example routine from the repository's own test
suite (`test.py`, `test_log_basic_behavior`):
`def recursive(times): if times - 1 > 0: recursive(times - 1)` —
a wrapped routine that, when invoked with count `n + 1`, performs one
nested wrapped call of itself with count `n`, and at count `0` just
returns.  `v0` plays the role of Python's `None`, `a` of the argument
list. -/
def selfRecBody {V E : Type} (v0 : V) (a : List V) : Nat → Prog V E
  | 0 => Prog.ret v0
  | n + 1 => Prog.call a (fun _ => selfRecBody v0 a n) (fun _ => Prog.ret v0)

/-! ## Model of the `_InvocationContext` state machine

`_InvocationContext` (log_call.py lines 41-92) guards its lifecycle with
`assert` statements; a failed `assert` raises `AssertionError`, and
reading an attribute that was never assigned (such as `_stack_level`
before `__enter__`) raises `AttributeError`.  Fallible operations return
`Except PyErr`. -/

/-- The two failure modes of the context's internal consistency checks. -/
inductive PyErr : Type where
  /-- A failed `assert` statement. -/
  | assertionError : PyErr
  /-- Reading an instance attribute that has not been assigned yet. -/
  | attributeError : PyErr
  deriving DecidableEq

/-- `_InvocationContext` instance state.  Attributes that `__init__`
only *declares* (lines 50-52) are `Option`s: `none` means "not assigned
yet", and reading them then is an `AttributeError`.  Elapsed time is
kept as the raw `perf_counter` difference (clock readings are modelled
as `Nat` tick counts supplied by the caller). -/
structure Ctx : Type where
  serialNumber : Nat
  entered : Bool
  exited : Bool
  stackLevelAttr : Option Nat
  startTimeAttr : Option Nat
  elapsedAttr : Option Nat
  deriving DecidableEq

/-- `_InvocationContext.__init__` (lines 46-54) for a freshly allocated
serial number: both lifecycle flags start `False` and the lifecycle
attributes are declared but not assigned. -/
def ctx_init (serial : Nat) : Ctx :=
  ⟨serial, false, false, none, none, none⟩

/-- `_InvocationContext.__enter__` (lines 55-61), given the current
thread's `call_stack_level` counter `threadDepth` and the current clock
reading `now`.  `assert not self._entered`; then the stack level becomes
`threadDepth + 1`, is written back to the thread-local counter (returned
alongside the new context state), and the start time is recorded. -/
def ctx_enter (c : Ctx) (threadDepth : Nat) (now : Nat) :
    Except PyErr (Ctx × Nat) :=
  if c.entered then Except.error PyErr.assertionError
  else
    Except.ok
      ({ c with
          entered := true
          stackLevelAttr := some (threadDepth + 1)
          startTimeAttr := some now },
        threadDepth + 1)

/-- `_InvocationContext.__exit__` (lines 62-66), given the current clock
reading `now`.  It contains no `assert`: it reads `self._stack_level`
(an `AttributeError` if `__enter__` never ran), writes `stack_level - 1`
back to the thread-local counter (returned alongside the new state),
computes the elapsed time from `self._start_time`, and sets `_exited`.
Nothing guards against being called twice. -/
def ctx_exit (c : Ctx) (now : Nat) : Except PyErr (Ctx × Nat) :=
  match c.stackLevelAttr with
  | none => Except.error PyErr.attributeError
  | some lvl =>
      match c.startTimeAttr with
      | none => Except.error PyErr.attributeError
      | some start =>
          Except.ok
            ({ c with
                elapsedAttr := some (now - start)
                exited := true },
              lvl - 1)

/-- The `stack_level` property (lines 75-79): `assert self._entered`,
then return `self._stack_level`. -/
def ctx_stack_level (c : Ctx) : Except PyErr Nat :=
  if c.entered then
    match c.stackLevelAttr with
    | some lvl => Except.ok lvl
    | none => Except.error PyErr.attributeError
  else Except.error PyErr.assertionError

/-- The `elapsed_time` property (lines 80-84): `assert self._exited`,
then return `self._elapsed_time`. -/
def ctx_elapsed_time (c : Ctx) : Except PyErr Nat :=
  if c.exited then
    match c.elapsedAttr with
    | some el => Except.ok el
    | none => Except.error PyErr.attributeError
  else Except.error PyErr.assertionError

/-! ## Model of the value-formatting pipeline

A Python object, as far as the formatting code can observe it: its
`repr` and `str` can each either produce a string or raise, and its type
has a qualified name and possibly a resolvable module
(`_format_object`, log_call.py lines 261-274). -/

/-- A raised rendering failure (the exception object raised by
`__repr__` or `__str__`). -/
structure ReprErr : Type where
  msg : String
  deriving DecidableEq

instance {ε α : Type} [DecidableEq ε] [DecidableEq α] :
    DecidableEq (Except ε α) := fun a b =>
  match a, b with
  | Except.ok x, Except.ok y =>
      if h : x = y then isTrue (by rw [h]) else isFalse (by simp [h])
  | Except.error x, Except.error y =>
      if h : x = y then isTrue (by rw [h]) else isFalse (by simp [h])
  | Except.ok _, Except.error _ => isFalse (by simp)
  | Except.error _, Except.ok _ => isFalse (by simp)

/-- Observable rendering behavior of a Python object. -/
structure PyObj : Type where
  /-- Behavior of `repr(o)`: a string, or the exception it raises. -/
  reprResult : Except ReprErr String
  /-- Behavior of `str(o)`: a string, or the exception it raises. -/
  strResult : Except ReprErr String
  /-- `type(o).__qualname__` (classes always carry `__qualname__`). -/
  typeQualname : String
  /-- `inspect.getmodule(type(o)).__name__`, when resolvable. -/
  typeModule : Option String
  deriving DecidableEq

/-- `_format_qualified_name` (lines 228-242) applied to `type(o)`: a
class has `__qualname__`, so the attribute loop picks it; the module
name is prefixed when `inspect.getmodule` resolves. -/
def format_qualified_name_of_type (o : PyObj) : String :=
  match o.typeModule with
  | some m => m ++ "." ++ o.typeQualname
  | none => o.typeQualname

/-- `_format_object` (lines 261-274): try `repr`, on any failure try
`str`, on any failure fall back to `"(<qualified type name> instance)"`.
Total by construction — no rendering failure escapes it. -/
def format_object (o : PyObj) : String :=
  match o.reprResult with
  | Except.ok s => s
  | Except.error _ =>
      match o.strResult with
      | Except.ok s => s
      | Except.error _ =>
          "(" ++ format_qualified_name_of_type o ++ " instance)"

/-- `_format_invocation_argument` (lines 243-249): positional arguments
through `_format_object`, then keyword arguments as
`name=<formatted>`, all joined by `", "`. -/
def format_invocation_argument (args : List PyObj)
    (kwargs : List (String × PyObj)) : String :=
  String.intercalate ", "
    (args.map format_object
      ++ kwargs.map (fun kv => kv.1 ++ "=" ++ format_object kv.2))

/-- The `result_info` computed by `_log_exit` for a normal return
(line 166): the f-string `f"{returned!r} returned"` calls `repr`
directly — not `_format_object` — so a raising `repr` propagates out of
`_log_exit`. -/
def log_exit_result_info_returned (returned : PyObj) :
    Except ReprErr String :=
  (returned.reprResult).map (fun s => s ++ " returned")

/-- The `result_info` computed by `_log_exit` for a raised exception
(line 163): `f"{raised!r} raised, stack: {...}"` likewise calls `repr`
on the exception object directly; `stackInfo` is the already-formatted
one-line call stack. -/
def log_exit_result_info_raised (raised : PyObj) (stackInfo : String) :
    Except ReprErr String :=
  (raised.reprResult).map (fun s => s ++ " raised, stack: " ++ stackInfo)

/-! ## Model of `_format_elapsed_time`

`datetime.timedelta` values are normalized: `0 ≤ seconds < 86400` and
`0 ≤ microseconds < 1000000`; elapsed times are non-negative, so all
three fields are `Nat`. -/

/-- A normalized, non-negative `datetime.timedelta`. -/
structure Timedelta : Type where
  days : Nat
  seconds : Nat
  microseconds : Nat
  deriving DecidableEq

/-- Zero-padding to a minimum width, as Python's `{n:0Nd}` format
specifier does. -/
def padZero (width n : Nat) : String :=
  let s := toString n
  if s.length < width then
    String.mk (List.replicate (width - s.length) '0') ++ s
  else s

/-- `str(datetime.timedelta(...))` for a non-negative value, following
CPython's `timedelta.__str__`: `H:MM:SS`, prefixed by `"D day, "` or
`"D days, "` when days are nonzero, suffixed by `".ffffff"` when
microseconds are nonzero. -/
def pyTimedeltaStr (t : Timedelta) : String :=
  let mm := t.seconds / 60
  let ss := t.seconds % 60
  let hh := mm / 60
  let mm2 := mm % 60
  let base := toString hh ++ ":" ++ padZero 2 mm2 ++ ":" ++ padZero 2 ss
  let base :=
    if t.days ≠ 0 then
      toString t.days ++ (if t.days = 1 then " day, " else " days, ") ++ base
    else base
  if t.microseconds ≠ 0 then base ++ "." ++ padZero 6 t.microseconds
  else base

/-- `_CallableWrapper._format_elapsed_time` (log_call.py lines
250-260), translated clause by clause:
`days > 0` → `str(elapsed_time)`; `seconds < 60` →
`f"00:{seconds:02}.{microseconds:06}"`; then with
`minutes, seconds = divmod(seconds, 60)`, `minutes <= 60` →
`f"{minutes:02}:{seconds:02}"`; otherwise with
`hours, minutes = divmod(minutes, 60)` → `f"{hours}:{minutes:02}:{seconds:02}"`. -/
def format_elapsed_time (t : Timedelta) : String :=
  if t.days > 0 then pyTimedeltaStr t
  else if t.seconds < 60 then
    "00:" ++ padZero 2 t.seconds ++ "." ++ padZero 6 t.microseconds
  else
    let minutes := t.seconds / 60
    let seconds := t.seconds % 60
    if minutes ≤ 60 then padZero 2 minutes ++ ":" ++ padZero 2 seconds
    else
      let hours := minutes / 60
      let minutes2 := minutes % 60
      toString hours ++ ":" ++ padZero 2 minutes2 ++ ":" ++ padZero 2 seconds

/-- The elapsed-time rendering exactly as claim C7 words it (spec §4.4
`formatElapsed`): `MM:SS.microseconds` whenever the duration is under
one hour of seconds, `H:MM:SS` beyond one hour, and the generic
long-duration string when it spans whole days. -/
def formatElapsed_claimed (t : Timedelta) : String :=
  if t.days > 0 then pyTimedeltaStr t
  else if t.seconds < 3600 then
    padZero 2 (t.seconds / 60) ++ ":" ++ padZero 2 (t.seconds % 60)
      ++ "." ++ padZero 6 t.microseconds
  else
    toString (t.seconds / 3600) ++ ":" ++ padZero 2 (t.seconds / 60 % 60)
      ++ ":" ++ padZero 2 (t.seconds % 60)

/-! ## Model of frame walking and caller-chain formatting -/

/-- One frame of a captured stack snapshot, as the walker observes it:
the module that `inspect.getmodule(frame.f_code)` resolves (if any), the
code object's `co_qualname`, and the current line number. -/
structure Frame : Type where
  module : Option String
  qualname : String
  lineno : Nat
  deriving DecidableEq

/-- The name of the instrumentation module itself (`__name__` of
`log_call.py` when imported as a module). -/
def logCallModuleName : String := "log_call"

/-- `_is_code_in_this_module` (lines 197-201): the frame's code resolves
to a module and that module is the instrumentation module. -/
def is_code_in_this_module (f : Frame) : Bool :=
  f.module == some logCallModuleName

/-- `_iterate_frames` (lines 187-196): walk the `f_back` chain (here: a
list, most recent first), yielding every frame whose code is *not* in
this module.  Each yielded frame keeps its own back-chain, since the
Python generator yields frame objects. -/
def iterate_frames : List Frame → List (Frame × List Frame)
  | [] => []
  | f :: rest =>
      (if is_code_in_this_module f then [] else [(f, rest)])
        ++ iterate_frames rest

/-- `_format_qualified_name` (lines 228-242) applied to a code object:
code objects carry `co_qualname` (not `__qualname__`), so the attribute
loop picks `co_qualname`; the module name is prefixed when
`inspect.getmodule` resolves. -/
def frame_qualified_name (f : Frame) : String :=
  match f.module with
  | some m => m ++ "." ++ f.qualname
  | none => f.qualname

/-- `_format_caller` (lines 202-212): the first frame yielded by
`_iterate_frames`, formatted as `"qualifiedName:line"`; if the iterator
is exhausted immediately (`StopIteration`), the sentinel
`"(unknown caller)"`. -/
def format_caller (stack : List Frame) : String :=
  match iterate_frames stack with
  | [] => "(unknown caller)"
  | (f, _) :: _ => frame_qualified_name f ++ ":" ++ toString f.lineno

/-- `_format_one_line_call_stack` (lines 213-227): join
`_format_caller(frame_)` over every yielded frame with `" <- "`; if the
joined string is empty (falsy), the sentinel `"(unknown stack)"`. -/
def format_one_line_call_stack (stack : List Frame) : String :=
  let result :=
    String.intercalate " <- "
      ((iterate_frames stack).map (fun fr => format_caller (fr.1 :: fr.2)))
  if result = "" then "(unknown stack)" else result

/-! ## Model of the descriptor protocol `__get__` and method binding -/

/-- The `_CallableWrapper` instance itself: the wrapped callable and the
configuration recorded by `__init__` (lines 94-110). -/
structure Wrapper (V E : Type) : Type where
  callable : List V → Prog V E
  logger_name : String
  log_level : Int

/-- Python's `types.MethodType(func, instance)`: a bound method object
holding exactly the function and the bound instance. -/
structure BoundMethod (V E : Type) : Type where
  func : Wrapper V E
  selfInstance : V

/-- Result of the descriptor lookup `_CallableWrapper.__get__`. -/
inductive GetResult (V E : Type) : Type where
  /-- Accessed through the class (`instance is None`): the wrapper
  itself. -/
  | wrapperSelf (w : Wrapper V E) : GetResult V E
  /-- Accessed through an instance: a bound method. -/
  | boundMethod (m : BoundMethod V E) : GetResult V E

/-- `_CallableWrapper.__get__` (lines 112-116): return the wrapper
itself when accessed on the class, else `types.MethodType(self,
instance)`. -/
def dunder_get {V E : Type} (w : Wrapper V E) (inst : Option V) :
    GetResult V E :=
  match inst with
  | none => GetResult.wrapperSelf w
  | some i => GetResult.boundMethod ⟨w, i⟩

/-- Invoking the wrapper object itself on an argument list (its
`__call__`, lines 118-130), in the operational model. -/
def wrapper_call {V E : Type} (reprV : V → Except E String)
    (reprE : E → Except E String) (w : Wrapper V E) (args : List V)
    (st : St V E) : Outcome V E × St V E :=
  invoke reprV reprE w.callable args st

/-- Invoking a bound method: Python's `MethodType.__call__` semantics —
the underlying function is called with the bound instance prepended to
the positional arguments. -/
def bound_method_call {V E : Type} (reprV : V → Except E String)
    (reprE : E → Except E String) (m : BoundMethod V E) (args : List V)
    (st : St V E) : Outcome V E × St V E :=
  wrapper_call reprV reprE m.func (m.selfInstance :: args) st

/-! ## Theorems -/

example : invoke reprTotal reprTotal (fun _ => Prog.ret 42)
    ([7] : List Nat) (⟨0, 0, []⟩ : St Nat Unit) =
    (Outcome.returned 42,
      ⟨0, 1, [Rec.entered 1 1 [7], Rec.exitedReturned 1 1 42]⟩) := by
  decide

/-- Executing any body leaves the thread-local call-stack depth exactly
where it found it: `__exit__` runs on all paths of `__call__` — before
either `_log_exit` call — and sets it back to `stack_level - 1`
(log_call.py lines 62-63), so this holds even when the exit-record
rendering raises. -/
theorem exec_depth_eq {V E : Type} (reprV : V → Except E String)
    (reprE : E → Except E String) (p : Prog V E) (st : St V E) :
    (exec reprV reprE p st).2.depth = st.depth := by
  induction p generalizing st with
  | ret v => simp [exec]
  | raiseE e => simp [exec]
  | raiseB e => simp [exec]
  | call args target k iht ihk =>
      simp only [exec]
      rcases hin : exec reprV reprE (target args) (enterState st args)
        with ⟨out, st2⟩
      cases out with
      | returned v =>
          cases hr : reprV v with
          | ok s =>
              dsimp only
              rw [hr]
              dsimp only
              rw [ihk v]
              simp
          | error e2 =>
              dsimp only
              rw [hr]
              simp
      | raised e =>
          cases hr : reprE e with
          | ok s =>
              dsimp only
              rw [hr]
              simp
          | error e2 =>
              dsimp only
              rw [hr]
              simp
      | interrupted e => simp

/-- Executing any body only appends to the log. -/
theorem exec_log_extends {V E : Type} (reprV : V → Except E String)
    (reprE : E → Except E String) (p : Prog V E) (st : St V E) :
    ∃ t, (exec reprV reprE p st).2.log = st.log ++ t := by
  induction p generalizing st with
  | ret v => exact ⟨[], by simp [exec]⟩
  | raiseE e => exact ⟨[], by simp [exec]⟩
  | raiseB e => exact ⟨[], by simp [exec]⟩
  | call args target k iht ihk =>
      simp only [exec]
      rcases hin : exec reprV reprE (target args) (enterState st args)
        with ⟨out, st2⟩
      obtain ⟨t1, h1⟩ := iht args (enterState st args)
      rw [hin] at h1
      simp only [enterState, List.append_assoc] at h1
      cases out with
      | returned v =>
          cases hr : reprV v with
          | ok s =>
              obtain ⟨t2, h2⟩ :=
                ihk v ⟨st.depth + 1 - 1, st2.serial,
                  st2.log
                    ++ [Rec.exitedReturned (st.depth + 1) (st.serial + 1) v]⟩
              refine ⟨[Rec.entered (st.depth + 1) (st.serial + 1) args] ++ t1
                ++ [Rec.exitedReturned (st.depth + 1) (st.serial + 1) v]
                ++ t2, ?_⟩
              dsimp only
              rw [hr]
              dsimp only
              rw [h2]
              simp [h1, List.append_assoc]
          | error e2 =>
              refine ⟨[Rec.entered (st.depth + 1) (st.serial + 1) args]
                ++ t1, ?_⟩
              dsimp only
              rw [hr]
              simp [h1]
      | raised e =>
          cases hr : reprE e with
          | ok s =>
              refine ⟨[Rec.entered (st.depth + 1) (st.serial + 1) args] ++ t1
                ++ [Rec.exitedRaised (st.depth + 1) (st.serial + 1) e], ?_⟩
              dsimp only
              rw [hr]
              simp [h1, List.append_assoc]
          | error e2 =>
              refine ⟨[Rec.entered (st.depth + 1) (st.serial + 1) args]
                ++ t1, ?_⟩
              dsimp only
              rw [hr]
              simp [h1]
      | interrupted e =>
          refine ⟨[Rec.entered (st.depth + 1) (st.serial + 1) args] ++ t1, ?_⟩
          simp [h1]

/-- Counterexample to C1 as stated: a target that returns `0`, a value
whose `repr` raises (`_log_exit`, log_call.py line 166, renders the
return value with a plain `!r` f-string, not `_format_object`).  The
inner execution returns `0`, but the wrapper's outcome is the raised
repr failure — it does not return the identical object the target
returned, refuting "on normal return the wrapper returns the identical
object" for every invocation. -/
theorem C1_counterexample :
    exec (fun v : Nat => if v = 0 then Except.error "reprboom"
        else Except.ok "ok")
      (fun e : String => Except.ok e) (Prog.ret 0)
      (enterState (⟨0, 0, []⟩ : St Nat String) [])
      = (Outcome.returned 0, enterState ⟨0, 0, []⟩ []) ∧
    (invoke (fun v : Nat => if v = 0 then Except.error "reprboom"
        else Except.ok "ok")
      (fun e : String => Except.ok e) (fun _ => Prog.ret 0) []
      ⟨0, 0, []⟩).1 = Outcome.raised "reprboom" ∧
    (invoke (fun v : Nat => if v = 0 then Except.error "reprboom"
        else Except.ok "ok")
      (fun e : String => Except.ok e) (fun _ => Prog.ret 0) []
      ⟨0, 0, []⟩).1 ≠ Outcome.returned 0 := by
  refine ⟨by decide, by decide, by decide⟩

/-- C1 amended: the wrapped target always receives exactly the argument
objects passed to the wrapper (the wrapper's behavior depends on the
target only through its body at exactly the received argument list);
and whenever the target returns a value whose `repr` rendering succeeds,
the wrapper returns that identical object unchanged — including falsy
and empty-container values.  When the returned value's `repr` raises,
the exit-record rendering failure propagates out of the wrapper instead
of the value being returned. -/
theorem C1_amended_transparency {V E : Type}
    (reprV : V → Except E String) (reprE : E → Except E String)
    (target : List V → Prog V E) (args : List V) (st : St V E) :
    (∀ target' : List V → Prog V E, target' args = target args →
      invoke reprV reprE target' args st
        = invoke reprV reprE target args st) ∧
    (∀ (v : V) (st2 : St V E) (s : String),
      exec reprV reprE (target args) (enterState st args)
        = (Outcome.returned v, st2) →
      reprV v = Except.ok s →
      (invoke reprV reprE target args st).1 = Outcome.returned v) ∧
    (∀ (v : V) (st2 : St V E) (e2 : E),
      exec reprV reprE (target args) (enterState st args)
        = (Outcome.returned v, st2) →
      reprV v = Except.error e2 →
      (invoke reprV reprE target args st).1 = Outcome.raised e2) := by
  refine ⟨?_, ?_, ?_⟩
  · intro target' h
    simp only [invoke, exec, h]
  · intro v st2 s hin hr
    simp only [invoke, exec, hin, hr]
  · intro v st2 e2 hin hr
    simp only [invoke, exec, hin, hr]

/-- Witness for C1 amended at concrete inputs: a target returning `42`
(whose repr succeeds) passes the value through identically, and the
repr-raising return value from the counterexample makes the wrapper
raise. -/
theorem C1_witness :
    (invoke reprTotal reprTotal (fun _ => Prog.ret 42) ([7] : List Nat)
      (⟨0, 0, []⟩ : St Nat Unit)).1 = Outcome.returned 42 ∧
    (invoke (fun v : Nat => if v = 0 then Except.error "reprboom"
        else Except.ok "ok")
      (fun e : String => Except.ok e) (fun _ => Prog.ret 0) []
      ⟨0, 0, []⟩).1 = Outcome.raised "reprboom" :=
  ⟨(C1_amended_transparency reprTotal reprTotal (fun _ => Prog.ret 42)
      [7] ⟨0, 0, []⟩).2.1 42 (enterState ⟨0, 0, []⟩ [7]) "" (by decide)
      (by decide),
    (C1_amended_transparency
      (fun v : Nat => if v = 0 then Except.error "reprboom"
        else Except.ok "ok")
      (fun e : String => Except.ok e) (fun _ => Prog.ret 0) []
      ⟨0, 0, []⟩).2.2 0 (enterState ⟨0, 0, []⟩ []) "reprboom" (by decide)
      (by decide)⟩

/-- Counterexample to C2 as stated: a target raising the exception
`"boom"` whose own `repr` raises (`_log_exit`, log_call.py line 163,
renders the caught exception with a plain `!r` f-string inside the
`except` clause, before the bare `raise`).  The repr failure propagates
instead of the original exception: the wrapper's outcome is the repr
failure, not `"boom"`, and no "exited" record is emitted — refuting
"re-raises the identical failure for every failure type". -/
theorem C2_counterexample :
    (invoke (fun _ : Nat => Except.ok "")
      (fun e : String => if e = "boom" then Except.error "reprboom"
        else Except.ok e)
      (fun _ => Prog.raiseE "boom") [] (⟨0, 0, []⟩ : St Nat String)).1
      = Outcome.raised "reprboom" ∧
    (invoke (fun _ : Nat => Except.ok "")
      (fun e : String => if e = "boom" then Except.error "reprboom"
        else Except.ok e)
      (fun _ => Prog.raiseE "boom") [] (⟨0, 0, []⟩ : St Nat String)).1
      ≠ Outcome.raised "boom" ∧
    countExited (invoke (fun _ : Nat => Except.ok "")
      (fun e : String => if e = "boom" then Except.error "reprboom"
        else Except.ok e)
      (fun _ => Prog.raiseE "boom") [] (⟨0, 0, []⟩ : St Nat String)).2.log
      = 0 := by
  refine ⟨by decide, by decide, by decide⟩

/-- C2 amended: for every failure (in the `Exception` hierarchy) raised
by the wrapped target *whose `repr` rendering succeeds*, the wrapper
re-raises the identical failure object — the very same value `e` —
after emitting the "exited" record.  When the failure's own `repr`
raises, that formatting failure propagates instead of the original
failure (the bare `raise` is never reached) and no "exited" record is
emitted. -/
theorem C2_amended_reraise {V E : Type}
    (reprV : V → Except E String) (reprE : E → Except E String)
    (target : List V → Prog V E) (args : List V) (st : St V E)
    (e : E) (st2 : St V E)
    (hin : exec reprV reprE (target args) (enterState st args)
      = (Outcome.raised e, st2)) :
    (∀ s : String, reprE e = Except.ok s →
      (invoke reprV reprE target args st).1 = Outcome.raised e ∧
      (invoke reprV reprE target args st).2.log =
        st2.log ++ [Rec.exitedRaised (st.depth + 1) (st.serial + 1) e]) ∧
    (∀ e2 : E, reprE e = Except.error e2 →
      (invoke reprV reprE target args st).1 = Outcome.raised e2 ∧
      (invoke reprV reprE target args st).2.log = st2.log) := by
  constructor
  · intro s hr
    simp only [invoke, exec, hin, hr]
    exact ⟨trivial, trivial⟩
  · intro e2 hr
    simp only [invoke, exec, hin, hr]
    exact ⟨trivial, trivial⟩

/-- Witness for C2 amended at concrete inputs: the exception `"boom"`
with a well-behaved repr is re-raised identically after the exit record;
with a raising repr the formatting failure propagates instead. -/
theorem C2_witness :
    ((invoke reprTotal reprTotal (fun _ => Prog.raiseE "boom")
        ([] : List Nat) (⟨0, 0, []⟩ : St Nat String)).1
        = Outcome.raised "boom" ∧
      (invoke reprTotal reprTotal (fun _ => Prog.raiseE "boom")
        ([] : List Nat) (⟨0, 0, []⟩ : St Nat String)).2.log =
        (enterState (⟨0, 0, []⟩ : St Nat String) []).log
          ++ [Rec.exitedRaised (0 + 1) (0 + 1) "boom"]) ∧
    (invoke (fun _ : Nat => Except.ok "")
      (fun e : String => if e = "boom" then Except.error "reprboom"
        else Except.ok e)
      (fun _ => Prog.raiseE "boom") [] (⟨0, 0, []⟩ : St Nat String)).1
      = Outcome.raised "reprboom" :=
  ⟨(C2_amended_reraise reprTotal reprTotal (fun _ => Prog.raiseE "boom")
      [] ⟨0, 0, []⟩ "boom" (enterState ⟨0, 0, []⟩ []) (by decide)).1 ""
      (by decide),
    ((C2_amended_reraise (fun _ : Nat => Except.ok "")
      (fun e : String => if e = "boom" then Except.error "reprboom"
        else Except.ok e)
      (fun _ => Prog.raiseE "boom") [] ⟨0, 0, []⟩ "boom"
      (enterState ⟨0, 0, []⟩ []) (by decide)).2 "reprboom" (by decide)).1⟩

/-- C10: If the wrapped target raises a failure outside the `Exception`
hierarchy (e.g. `KeyboardInterrupt`), `except Exception` does not match:
the wrapper still propagates the identical failure, the `with` block's
`__exit__` still restores the thread's depth counter to its prior value,
but no "exited" record is emitted (the log ends exactly as the inner
execution left it) — for every repr behavior, since `_log_exit` is
never called on this path. -/
theorem C10_base_failure_no_exit_record {V E : Type}
    (reprV : V → Except E String) (reprE : E → Except E String)
    (target : List V → Prog V E) (args : List V) (st : St V E)
    (e : E) (st2 : St V E)
    (hin : exec reprV reprE (target args) (enterState st args) =
      (Outcome.interrupted e, st2)) :
    (invoke reprV reprE target args st).1 = Outcome.interrupted e ∧
    (invoke reprV reprE target args st).2.depth = st.depth ∧
    (invoke reprV reprE target args st).2.log = st2.log := by
  simp only [invoke, exec, hin]
  refine ⟨trivial, ?_, trivial⟩
  simp

/-- Witness for C10 at a concrete input: a target raising a
non-`Exception` `BaseException` propagates it with the depth restored
and no exit record logged. -/
theorem C10_witness :
    (invoke reprTotal reprTotal (fun _ => Prog.raiseB "kbdint")
        ([] : List Nat) (⟨0, 0, []⟩ : St Nat String)).1
      = Outcome.interrupted "kbdint" ∧
    (invoke reprTotal reprTotal (fun _ => Prog.raiseB "kbdint")
        ([] : List Nat) (⟨0, 0, []⟩ : St Nat String)).2.depth = 0 ∧
    (invoke reprTotal reprTotal (fun _ => Prog.raiseB "kbdint")
        ([] : List Nat) (⟨0, 0, []⟩ : St Nat String)).2.log =
      (enterState (⟨0, 0, []⟩ : St Nat String) []).log :=
  C10_base_failure_no_exit_record reprTotal reprTotal
    (fun _ => Prog.raiseB "kbdint") [] ⟨0, 0, []⟩ "kbdint"
    (enterState ⟨0, 0, []⟩ []) (by decide)

theorem countEntered_append {V E : Type} (l1 l2 : List (Rec V E)) :
    countEntered (l1 ++ l2) = countEntered l1 + countEntered l2 := by
  simp [countEntered, List.countP_append]

theorem countExited_append {V E : Type} (l1 l2 : List (Rec V E)) :
    countExited (l1 ++ l2) = countExited l1 + countExited l2 := by
  simp [countExited, List.countP_append]

/-- C5: A top-level call has stack level 1; a call issued from within
another wrapped call on the same thread has stack level equal to the
parent's level plus 1; and after the child call exits (normally or by
failure) the thread's depth counter is restored to the parent's level.
Formally: (1) executing any body — in particular any wrapped invocation
— leaves the thread-local depth counter exactly where it found it, so a
child's exit restores the parent's level; (2) a wrapped invocation
started while the thread's counter reads `d` logs its "entered" record
at stack level `d + 1` — for a top-level call `d = 0` gives level 1, and
for a call inside a parent running at level `L` the counter reads `L`,
giving level `L + 1`.  Nesting is LIFO by construction: the child's
records sit between the parent's `entered` and `exited` records. -/
theorem C5_depth_attribution {V E : Type} (reprV : V → Except E String)
    (reprE : E → Except E String) :
    (∀ (p : Prog V E) (st : St V E),
      (exec reprV reprE p st).2.depth = st.depth) ∧
    (∀ (args : List V) (target : List V → Prog V E) (k : V → Prog V E)
        (st : St V E),
      ∃ t, (exec reprV reprE (Prog.call args target k) st).2.log =
        st.log ++ Rec.entered (st.depth + 1) (st.serial + 1) args :: t) := by
  refine ⟨exec_depth_eq reprV reprE, ?_⟩
  intro args target k st
  obtain ⟨t1, h1⟩ :=
    exec_log_extends reprV reprE (target args) (enterState st args)
  simp only [exec]
  rcases hin : exec reprV reprE (target args) (enterState st args)
    with ⟨out, st2⟩
  rw [hin] at h1
  simp only [enterState, List.append_assoc, List.singleton_append] at h1
  cases out with
  | returned v =>
      cases hr : reprV v with
      | ok s =>
          obtain ⟨t2, h2⟩ :=
            exec_log_extends reprV reprE (k v)
              ⟨st.depth + 1 - 1, st2.serial,
                st2.log
                  ++ [Rec.exitedReturned (st.depth + 1) (st.serial + 1) v]⟩
          refine ⟨t1
            ++ [Rec.exitedReturned (st.depth + 1) (st.serial + 1) v]
            ++ t2, ?_⟩
          dsimp only
          rw [hr]
          dsimp only
          rw [h2]
          simp [h1, List.append_assoc]
      | error e2 =>
          refine ⟨t1, ?_⟩
          dsimp only
          rw [hr]
          simp [h1]
  | raised e =>
      cases hr : reprE e with
      | ok s =>
          refine ⟨t1
            ++ [Rec.exitedRaised (st.depth + 1) (st.serial + 1) e], ?_⟩
          dsimp only
          rw [hr]
          simp [h1, List.append_assoc]
      | error e2 =>
          refine ⟨t1, ?_⟩
          dsimp only
          rw [hr]
          simp [h1]
  | interrupted e =>
      refine ⟨t1, ?_⟩
      simp [h1]

/-- Running the recursive example body `selfRecBody v0 a n` from any
state — provided the routine's return value `v0` (Python's `None`)
renders successfully — returns `v0` and adds exactly `n` "entered"
records, `n` "exited" records, and `2 * n` records in total. -/
theorem selfRecBody_exec {V E : Type} (reprV : V → Except E String)
    (reprE : E → Except E String) (v0 : V) (a : List V) (s : String)
    (hr : reprV v0 = Except.ok s) :
    ∀ (n : Nat) (st : St V E),
      (exec reprV reprE (selfRecBody v0 a n) st).1
        = Outcome.returned v0 ∧
      (exec reprV reprE (selfRecBody v0 a n) st).2.log.length
        = st.log.length + 2 * n ∧
      countEntered (exec reprV reprE (selfRecBody v0 a n) st).2.log
        = countEntered st.log + n ∧
      countExited (exec reprV reprE (selfRecBody v0 a n) st).2.log
        = countExited st.log + n := by
  intro n
  induction n with
  | zero => intro st; simp [selfRecBody, exec]
  | succ n ih =>
      intro st
      simp only [selfRecBody, exec]
      rcases hin : exec reprV reprE (selfRecBody v0 a n) (enterState st a)
        with ⟨out, st2⟩
      have hrec := ih (enterState st a)
      rw [hin] at hrec
      obtain ⟨hout, hlen, hent, hext⟩ := hrec
      simp [enterState, countEntered, countExited, isEntered, isExited,
        List.countP_append, List.countP_cons] at hlen hent hext
      simp only [] at hout
      subst hout
      simp only [hr, exec]
      refine ⟨trivial, ?_, ?_, ?_⟩
      · simp only [List.length_append, List.length_singleton]
        omega
      · simp [countEntered, isEntered, List.countP_append, List.countP_cons]
        omega
      · simp [countExited, isExited, List.countP_append, List.countP_cons]
        omega

/-- Counterexample to C3 as stated: an invocation whose target returns
normally (it returns `0`), but whose return value's `repr` raises — so
`_log_exit` (log_call.py line 166) raises before emitting the record.
The invocation produces one "entered" record and *zero* "exited"
records, refuting "exactly one exited record per invocation, whether
the target returns normally or fails". -/
theorem C3_counterexample :
    exec (fun v : Nat => if v = 0 then Except.error "reprboom"
        else Except.ok "ok")
      (fun e : String => Except.ok e) (Prog.ret 0)
      (enterState (⟨0, 0, []⟩ : St Nat String) [])
      = (Outcome.returned 0, enterState ⟨0, 0, []⟩ []) ∧
    countEntered (invoke (fun v : Nat => if v = 0 then
          Except.error "reprboom" else Except.ok "ok")
      (fun e : String => Except.ok e) (fun _ => Prog.ret 0) []
      (⟨0, 0, []⟩ : St Nat String)).2.log = 1 ∧
    countExited (invoke (fun v : Nat => if v = 0 then
          Except.error "reprboom" else Except.ok "ok")
      (fun e : String => Except.ok e) (fun _ => Prog.ret 0) []
      (⟨0, 0, []⟩ : St Nat String)).2.log = 0 := by
  refine ⟨by decide, by decide, by decide⟩

/-- C3 amended: every invocation of the wrapper emits exactly one
"entered" record; it emits exactly one "exited" record when the
exit-record rendering of the outcome succeeds — a normal return whose
value's `repr` succeeds, or an `Exception` whose `repr` succeeds — but
when that rendering raises, no "exited" record is emitted for that
invocation (one entered, zero exited; the `BaseException` path likewise
emits none, see the C10 theorem).  A routine that recursively calls
itself `n + 1` times (base case included), whose return value renders
successfully, produces exactly `2 * (n + 1)` log records: `n + 1`
"entered" and `n + 1` "exited". -/
theorem C3_amended_record_counts {V E : Type}
    (reprV : V → Except E String) (reprE : E → Except E String)
    (target : List V → Prog V E) (args : List V) (st : St V E) :
    (countEntered (enterState st args).log = countEntered st.log + 1 ∧
      countExited (enterState st args).log = countExited st.log) ∧
    (∀ (v : V) (st2 : St V E) (s : String),
      exec reprV reprE (target args) (enterState st args)
        = (Outcome.returned v, st2) →
      reprV v = Except.ok s →
      countEntered (invoke reprV reprE target args st).2.log
        = countEntered st2.log ∧
      countExited (invoke reprV reprE target args st).2.log
        = countExited st2.log + 1) ∧
    (∀ (e : E) (st2 : St V E) (s : String),
      exec reprV reprE (target args) (enterState st args)
        = (Outcome.raised e, st2) →
      reprE e = Except.ok s →
      countEntered (invoke reprV reprE target args st).2.log
        = countEntered st2.log ∧
      countExited (invoke reprV reprE target args st).2.log
        = countExited st2.log + 1) ∧
    (∀ (v : V) (st2 : St V E) (e2 : E),
      exec reprV reprE (target args) (enterState st args)
        = (Outcome.returned v, st2) →
      reprV v = Except.error e2 →
      (invoke reprV reprE target args st).2.log = st2.log) ∧
    (∀ (e : E) (st2 : St V E) (e2 : E),
      exec reprV reprE (target args) (enterState st args)
        = (Outcome.raised e, st2) →
      reprE e = Except.error e2 →
      (invoke reprV reprE target args st).2.log = st2.log) ∧
    (∀ (n : Nat) (v0 : V) (s : String), reprV v0 = Except.ok s →
      (invoke reprV reprE (fun _ => selfRecBody v0 args n) args
          st).2.log.length = st.log.length + 2 * (n + 1) ∧
      countEntered (invoke reprV reprE (fun _ => selfRecBody v0 args n)
          args st).2.log = countEntered st.log + (n + 1) ∧
      countExited (invoke reprV reprE (fun _ => selfRecBody v0 args n)
          args st).2.log = countExited st.log + (n + 1)) := by
  refine ⟨⟨?_, ?_⟩, ?_, ?_, ?_, ?_, ?_⟩
  · simp [enterState, countEntered_append, countEntered,
      List.countP_singleton, isEntered]
  · simp [enterState, countExited_append, countExited,
      List.countP_singleton, isExited]
  · intro v st2 s hin hr
    simp only [invoke, exec, hin, hr]
    constructor
    · simp [countEntered_append, countEntered, List.countP_singleton,
        isEntered]
    · simp [countExited_append, countExited, List.countP_singleton,
        isExited]
  · intro e st2 s hin hr
    simp only [invoke, exec, hin, hr]
    constructor
    · simp [countEntered_append, countEntered, List.countP_singleton,
        isEntered]
    · simp [countExited_append, countExited, List.countP_singleton,
        isExited]
  · intro v st2 e2 hin hr
    simp only [invoke, exec, hin, hr]
  · intro e st2 e2 hin hr
    simp only [invoke, exec, hin, hr]
  · intro n v0 s hr
    simp only [invoke, exec]
    rcases hin : exec reprV reprE (selfRecBody v0 args n)
      (enterState st args) with ⟨out, st2⟩
    have hrec := selfRecBody_exec reprV reprE v0 args s hr n
      (enterState st args)
    rw [hin] at hrec
    obtain ⟨hout, hlen, hent, hext⟩ := hrec
    simp [enterState, countEntered, countExited, isEntered, isExited,
      List.countP_append, List.countP_cons] at hlen hent hext
    simp only [] at hout
    subst hout
    simp only [hr, exec]
    refine ⟨?_, ?_, ?_⟩
    · simp only [List.length_append, List.length_singleton]
      omega
    · simp [countEntered, isEntered, List.countP_append, List.countP_cons]
      omega
    · simp [countExited, isExited, List.countP_append, List.countP_cons]
      omega

/-- Witness for C3 amended at concrete inputs: the wrapped recursive
routine invoked so that it calls itself 3 times produces exactly 6 log
records — 3 "entered" and 3 "exited" — and the repr-raising return
value from the counterexample leaves the log with no exit record beyond
what the inner execution produced. -/
theorem C3_witness :
    ((invoke reprTotal reprTotal (fun _ => selfRecBody 0 [] 2)
        ([] : List Nat) (⟨0, 0, []⟩ : St Nat Empty)).2.log.length
        = 0 + 2 * 3 ∧
      countEntered (invoke reprTotal reprTotal
        (fun _ => selfRecBody 0 [] 2) ([] : List Nat)
        (⟨0, 0, []⟩ : St Nat Empty)).2.log
        = countEntered ([] : List (Rec Nat Empty)) + 3 ∧
      countExited (invoke reprTotal reprTotal
        (fun _ => selfRecBody 0 [] 2) ([] : List Nat)
        (⟨0, 0, []⟩ : St Nat Empty)).2.log
        = countExited ([] : List (Rec Nat Empty)) + 3) ∧
    (invoke (fun v : Nat => if v = 0 then Except.error "reprboom"
        else Except.ok "ok")
      (fun e : String => Except.ok e) (fun _ => Prog.ret 0) []
      (⟨0, 0, []⟩ : St Nat String)).2.log
      = (enterState (⟨0, 0, []⟩ : St Nat String) []).log :=
  ⟨(C3_amended_record_counts reprTotal reprTotal
      (fun _ => selfRecBody 0 [] 2) [] ⟨0, 0, []⟩).2.2.2.2.2 2 0 ""
      (by decide),
    (C3_amended_record_counts
      (fun v : Nat => if v = 0 then Except.error "reprboom"
        else Except.ok "ok")
      (fun e : String => Except.ok e) (fun _ => Prog.ret 0) []
      ⟨0, 0, []⟩).2.2.2.1 0 (enterState ⟨0, 0, []⟩ []) "reprboom"
      (by decide) (by decide)⟩

/-- C9: Accessing a wrapper stored as a class attribute through an
object instance yields a bound variant that, on every call, implicitly
supplies that instance as the leading argument to the wrapped target —
without constructing a new wrapper or re-running the wrapping
configuration step: the bound method holds the very same wrapper object
(same callable, logger name and level), calling it forwards to that
wrapper with the instance prepended, and class access (`instance is
None`) returns the wrapper itself. -/
theorem C9_instance_binding {V E : Type} (w : Wrapper V E) (i : V) :
    dunder_get w (some i) = GetResult.boundMethod ⟨w, i⟩ ∧
    (∀ (reprV : V → Except E String) (reprE : E → Except E String)
        (args : List V) (st : St V E),
      bound_method_call reprV reprE ⟨w, i⟩ args st
        = wrapper_call reprV reprE w (i :: args) st) ∧
    dunder_get w none = GetResult.wrapperSelf w :=
  ⟨rfl, fun _ _ _ _ => rfl, rfl⟩

/-- Counterexample to C6 as stated: `__exit__` contains no guard at all,
so invoking exit twice on the same context does *not* fail with a
consistency error — the second exit silently succeeds, recomputing the
elapsed time (here from 5 to 9 ticks) and rewriting the thread counter.
The first two conjuncts trace a fresh context through enter and a first
exit; the last shows the second exit returning `ok`. -/
theorem C6_counterexample :
    ctx_enter (ctx_init 1) 0 0
      = Except.ok (⟨1, true, false, some 1, some 0, none⟩, 1) ∧
    ctx_exit ⟨1, true, false, some 1, some 0, none⟩ 5
      = Except.ok (⟨1, true, true, some 1, some 0, some 5⟩, 0) ∧
    ctx_exit ⟨1, true, true, some 1, some 0, some 5⟩ 9
      = Except.ok (⟨1, true, true, some 1, some 0, some 9⟩, 0) := by
  decide

/-- C6 amended: an `_InvocationContext` moves Unopened → Open on entry
and Open → Closed on exit; invoking entry twice fails with an internal
consistency error (`assert not self._entered`), and reading
`stack_level` before entry or `elapsed_time` before exit fails with a
consistency error rather than returning data.  Exit, however, is *not*
guarded: whenever the context has been entered (its stack level and
start time are assigned), exit succeeds — even if the context is
already closed (see the counterexample). -/
theorem C6_amended_state_machine (c : Ctx) (d t : Nat) :
    (c.entered = true → ctx_enter c d t = Except.error PyErr.assertionError) ∧
    (c.entered = false →
      ctx_enter c d t = Except.ok
        ({ c with
            entered := true
            stackLevelAttr := some (d + 1)
            startTimeAttr := some t }, d + 1)) ∧
    (c.entered = false →
      ctx_stack_level c = Except.error PyErr.assertionError) ∧
    (c.exited = false →
      ctx_elapsed_time c = Except.error PyErr.assertionError) ∧
    (∀ lvl start, c.stackLevelAttr = some lvl → c.startTimeAttr = some start →
      ctx_exit c t = Except.ok
        ({ c with
            elapsedAttr := some (t - start)
            exited := true }, lvl - 1)) := by
  refine ⟨?_, ?_, ?_, ?_, ?_⟩
  · intro h; simp [ctx_enter, h]
  · intro h; simp [ctx_enter, h]
  · intro h; simp [ctx_stack_level, h]
  · intro h; simp [ctx_elapsed_time, h]
  · intro lvl start h1 h2; simp [ctx_exit, h1, h2]

/-- Witness for C6 amended at concrete inputs: entering an already-open
context is an assertion failure, and exiting an already-closed context
succeeds and recomputes the elapsed time. -/
theorem C6_witness :
    ctx_enter ⟨2, true, false, some 1, some 0, none⟩ 1 0
      = Except.error PyErr.assertionError ∧
    ctx_exit ⟨2, true, true, some 3, some 4, some 0⟩ 10
      = Except.ok (⟨2, true, true, some 3, some 4, some 6⟩, 2) :=
  ⟨(C6_amended_state_machine ⟨2, true, false, some 1, some 0, none⟩ 1 0).1
      rfl,
    (C6_amended_state_machine ⟨2, true, true, some 3, some 4, some 0⟩ 0
      10).2.2.2.2 3 4 rfl rfl⟩

/-- Counterexample to C7 as stated: a duration of exactly 2 minutes is
"under one hour of seconds", so the claimed `MM:SS.microseconds` shape
would render it `"02:00.000000"`; the code's `seconds < 60` guard means
microseconds are only rendered under one *minute*, so it actually
renders `"02:00"`. -/
theorem C7_counterexample :
    format_elapsed_time ⟨0, 120, 0⟩ = "02:00" ∧
    formatElapsed_claimed ⟨0, 120, 0⟩ = "02:00.000000" ∧
    format_elapsed_time ⟨0, 120, 0⟩ ≠ formatElapsed_claimed ⟨0, 120, 0⟩ := by
  refine ⟨by decide, by decide, by decide⟩

/-- C7 amended: the elapsed-time formatter renders
`00:SS.microseconds` only when the duration is under one *minute*;
`MM:SS` (without microseconds) from one minute up to and including a
whole-minute count of 60 (durations below 3660 seconds); `H:MM:SS`
beyond that; and falls back to the generic long-duration string
representation (`str(timedelta)`) when the duration spans whole
days. -/
theorem C7_amended_bands (t : Timedelta) :
    (t.days > 0 → format_elapsed_time t = pyTimedeltaStr t) ∧
    (t.days = 0 → t.seconds < 60 →
      format_elapsed_time t =
        "00:" ++ padZero 2 t.seconds ++ "." ++ padZero 6 t.microseconds) ∧
    (t.days = 0 → 60 ≤ t.seconds → t.seconds < 3660 →
      format_elapsed_time t =
        padZero 2 (t.seconds / 60) ++ ":" ++ padZero 2 (t.seconds % 60)) ∧
    (t.days = 0 → 3660 ≤ t.seconds →
      format_elapsed_time t =
        toString (t.seconds / 3600) ++ ":" ++ padZero 2 (t.seconds / 60 % 60)
          ++ ":" ++ padZero 2 (t.seconds % 60)) := by
  refine ⟨?_, ?_, ?_, ?_⟩
  · intro h; simp [format_elapsed_time, h]
  · intro h h60; simp [format_elapsed_time, h, h60]
  · intro h h60 h3660
    simp only [format_elapsed_time, h]
    rw [if_neg (by omega), if_neg (by omega), if_pos (by omega)]
  · intro h h3660
    simp only [format_elapsed_time, h]
    rw [if_neg (by omega), if_neg (by omega), if_neg (by omega)]
    rw [Nat.div_div_eq_div_mul]

/-- Witness for C7 amended at concrete inputs, one per band: 30.000005
seconds renders with microseconds; 3659 seconds renders as `60:59`
(minutes count 60, still the `MM:SS` shape); 3660 seconds tips into
`H:MM:SS`; a 2-day duration falls back to `str(timedelta)`. -/
theorem C7_witness :
    format_elapsed_time ⟨0, 30, 5⟩ = "00:30.000005" ∧
    format_elapsed_time ⟨0, 3659, 0⟩ = "60:59" ∧
    format_elapsed_time ⟨0, 3660, 0⟩ = "1:01:00" ∧
    format_elapsed_time ⟨2, 3, 4⟩ = pyTimedeltaStr ⟨2, 3, 4⟩ := by
  refine ⟨?_, ?_, ?_, ?_⟩
  · rw [(C7_amended_bands ⟨0, 30, 5⟩).2.1 rfl (by decide)]; decide
  · rw [(C7_amended_bands ⟨0, 3659, 0⟩).2.2.1 rfl (by decide) (by decide)]
    decide
  · rw [(C7_amended_bands ⟨0, 3660, 0⟩).2.2.2 rfl (by decide)]; decide
  · exact (C7_amended_bands ⟨2, 3, 4⟩).1 (by decide)

theorem iterate_frames_map_fst (stack : List Frame) :
    (iterate_frames stack).map Prod.fst
      = stack.filter (fun f => !is_code_in_this_module f) := by
  induction stack with
  | nil => rfl
  | cons f rest ih =>
      by_cases h : is_code_in_this_module f
      · simp [iterate_frames, h, List.filter_cons, ih]
      · simp [iterate_frames, h, List.filter_cons, ih]

theorem iterate_frames_mem_not_in_module (stack : List Frame) :
    ∀ fr ∈ iterate_frames stack, is_code_in_this_module fr.1 = false := by
  induction stack with
  | nil => intro fr hmem; simp [iterate_frames] at hmem
  | cons f rest ih =>
      intro fr hmem
      by_cases h : is_code_in_this_module f
      · simp only [iterate_frames, h, if_pos, List.nil_append] at hmem
        exact ih fr hmem
      · simp only [iterate_frames, h, if_neg, List.singleton_append] at hmem
        cases hmem with
        | head => simpa using h
        | tail _ h2 => exact ih fr h2

theorem intercalate_go_length_le (s : String) (l : List String) :
    ∀ acc : String, acc.length ≤ (String.intercalate.go acc s l).length := by
  induction l with
  | nil => intro acc; simp [String.intercalate.go]
  | cons a as ih =>
      intro acc
      have h := ih (acc ++ s ++ a)
      simp only [String.intercalate.go]
      refine le_trans ?_ h
      simp only [String.length_append]
      omega

/-- C8: The caller-chain walker yields exactly the frames whose code is
not in the instrumentation module, in order (most recent first);
`formatCaller` returns the first remaining frame as
`"qualifiedName:line"`, or `"(unknown caller)"` when none remains; and
`formatOneLineStack` joins all remaining frames most-recent-first with
`" <- "`, or returns `"(unknown stack)"` when none remains. -/
theorem C8_caller_chain (stack : List Frame) :
    ((iterate_frames stack).map Prod.fst
      = stack.filter (fun f => !is_code_in_this_module f)) ∧
    (format_caller stack =
      match stack.filter (fun f => !is_code_in_this_module f) with
      | [] => "(unknown caller)"
      | f :: _ => frame_qualified_name f ++ ":" ++ toString f.lineno) ∧
    (format_one_line_call_stack stack =
      if stack.filter (fun f => !is_code_in_this_module f) = [] then
        "(unknown stack)"
      else
        String.intercalate " <- "
          ((stack.filter (fun f => !is_code_in_this_module f)).map
            (fun f => frame_qualified_name f ++ ":" ++ toString f.lineno))) := by
  have hmap := iterate_frames_map_fst stack
  have hcall : ∀ fr ∈ iterate_frames stack,
      format_caller (fr.1 :: fr.2)
        = frame_qualified_name fr.1 ++ ":" ++ toString fr.1.lineno := by
    intro fr hmem
    have hnm := iterate_frames_mem_not_in_module stack fr hmem
    simp [format_caller, iterate_frames, hnm]
  have hjoin : (iterate_frames stack).map
        (fun fr => format_caller (fr.1 :: fr.2))
      = (stack.filter (fun f => !is_code_in_this_module f)).map
        (fun f => frame_qualified_name f ++ ":" ++ toString f.lineno) := by
    rw [List.map_congr_left hcall, ← hmap, List.map_map]
    rfl
  refine ⟨hmap, ?_, ?_⟩
  · rcases hit : iterate_frames stack with _ | ⟨⟨g, r⟩, rest⟩
    · rw [hit] at hmap
      simp only [List.map_nil] at hmap
      rw [← hmap]
      simp [format_caller, hit]
    · rw [hit] at hmap
      simp only [List.map_cons] at hmap
      rw [← hmap]
      simp [format_caller, hit]
  · rcases hfil : stack.filter (fun f => !is_code_in_this_module f)
      with _ | ⟨f, fs⟩
    · rw [hfil] at hmap
      have hnil : iterate_frames stack = [] := List.map_eq_nil_iff.mp hmap
      simp [format_one_line_call_stack, hnil, String.intercalate]
    · rw [hfil] at hjoin
      have h1 : (frame_qualified_name f ++ ":" ++ toString f.lineno).length
          = (frame_qualified_name f).length + ":".length
            + (toString f.lineno).length := by
        simp [String.length_append]
      have h2 : ":".length = 1 := rfl
      have hne : String.intercalate " <- "
          ((f :: fs).map
            (fun f => frame_qualified_name f ++ ":" ++ toString f.lineno))
          ≠ "" := by
        intro hcontra
        have hle := intercalate_go_length_le " <- "
          (fs.map
            (fun f => frame_qualified_name f ++ ":" ++ toString f.lineno))
          (frame_qualified_name f ++ ":" ++ toString f.lineno)
        have heq : String.intercalate " <- "
            ((frame_qualified_name f ++ ":" ++ toString f.lineno)
              :: fs.map (fun f => frame_qualified_name f ++ ":"
                ++ toString f.lineno))
            = String.intercalate.go
                (frame_qualified_name f ++ ":" ++ toString f.lineno) " <- "
                (fs.map (fun f => frame_qualified_name f ++ ":"
                  ++ toString f.lineno)) := rfl
        rw [List.map_cons, heq] at hcontra
        rw [hcontra] at hle
        simp at hle
        omega
      simp only [format_one_line_call_stack, hjoin]
      rw [if_neg hne]
      simp

/-- Counterexample to C4 as stated: a value whose `repr` raises.  Its
rendering as an invocation *argument* is absorbed by `_format_object`'s
fallback (second tier, `str`), but `_log_exit` renders return values and
raised errors with a plain `repr` f-string, so the very same formatting
failure escapes there — it is not routed through the three-tier
fallback. -/
theorem C4_counterexample :
    format_object ⟨Except.error ⟨"repr boom"⟩, Except.ok "via str", "Bad",
      none⟩ = "via str" ∧
    log_exit_result_info_returned ⟨Except.error ⟨"repr boom"⟩,
      Except.ok "via str", "Bad", none⟩ = Except.error ⟨"repr boom"⟩ ∧
    log_exit_result_info_raised ⟨Except.error ⟨"repr boom"⟩,
      Except.ok "via str", "Bad", none⟩ "caller"
      = Except.error ⟨"repr boom"⟩ :=
  ⟨rfl, rfl, rfl⟩

/-- C4 amended: invocation arguments are rendered through
`_format_object`'s three-tier fallback — repr, then str, then
`"(<type-qualified-name> instance)"` — so argument-formatting failures
never escape (the renderer is total); but return values and raised
errors are rendered by `_log_exit` with plain `repr`, whose failures are
not absorbed and propagate out of the exit-logging step. -/
theorem C4_amended_formatting (o : PyObj) (args : List PyObj)
    (kwargs : List (String × PyObj)) :
    (∀ s, o.reprResult = Except.ok s → format_object o = s) ∧
    (∀ err s, o.reprResult = Except.error err →
      o.strResult = Except.ok s → format_object o = s) ∧
    (∀ err err2, o.reprResult = Except.error err →
      o.strResult = Except.error err2 →
      format_object o
        = "(" ++ format_qualified_name_of_type o ++ " instance)") ∧
    (format_invocation_argument args kwargs =
      String.intercalate ", "
        (args.map format_object
          ++ kwargs.map (fun kv => kv.1 ++ "=" ++ format_object kv.2))) ∧
    (∀ err, o.reprResult = Except.error err →
      log_exit_result_info_returned o = Except.error err ∧
      ∀ stackInfo,
        log_exit_result_info_raised o stackInfo = Except.error err) := by
  refine ⟨?_, ?_, ?_, rfl, ?_⟩
  · intro s h; simp [format_object, h]
  · intro err s h1 h2; simp [format_object, h1, h2]
  · intro err err2 h1 h2; simp [format_object, h1, h2]
  · intro err h
    exact ⟨by simp [log_exit_result_info_returned, h, Except.map],
      fun stackInfo => by simp [log_exit_result_info_raised, h, Except.map]⟩

/-- Witness for C4 amended at concrete inputs: each fallback tier
observed on a concrete object, and the escape of a raising `repr` from
the exit-record renderer. -/
theorem C4_witness :
    format_object ⟨Except.ok "r", Except.ok "s", "T", none⟩ = "r" ∧
    format_object ⟨Except.error ⟨"e1"⟩, Except.ok "s", "T", none⟩ = "s" ∧
    format_object ⟨Except.error ⟨"e1"⟩, Except.error ⟨"e2"⟩, "T",
        some "m"⟩
      = "(" ++ format_qualified_name_of_type
          ⟨Except.error ⟨"e1"⟩, Except.error ⟨"e2"⟩, "T", some "m"⟩
          ++ " instance)" ∧
    log_exit_result_info_returned ⟨Except.error ⟨"e1"⟩, Except.ok "s",
        "T", none⟩ = Except.error ⟨"e1"⟩ :=
  ⟨(C4_amended_formatting ⟨Except.ok "r", Except.ok "s", "T", none⟩ []
      []).1 "r" rfl,
    (C4_amended_formatting ⟨Except.error ⟨"e1"⟩, Except.ok "s", "T",
      none⟩ [] []).2.1 ⟨"e1"⟩ "s" rfl rfl,
    (C4_amended_formatting ⟨Except.error ⟨"e1"⟩, Except.error ⟨"e2"⟩,
      "T", some "m"⟩ [] []).2.2.1 ⟨"e1"⟩ ⟨"e2"⟩ rfl rfl,
    ((C4_amended_formatting ⟨Except.error ⟨"e1"⟩, Except.ok "s", "T",
      none⟩ [] []).2.2.2.2 ⟨"e1"⟩ rfl).1⟩

end LogCall
